import Mathlib

/-!
Verification development for the easy-pay payment client
(`src/core/easy-pay.ts` together with the schema and type definitions in
`src/types/index.ts`).

The TypeScript class `easyPay` is shallowly embedded as pure Lean
functions.  Network traffic, timer delays and the `onSuccess`/`onFailure`
notification hooks are made observable through an explicit event trace
(`PayEvent`): every outbound HTTP request, every retry delay and every
hook invocation appends one event.  The responses the remote endpoints
would deliver are supplied up front through a `NetEnv` record, so each
method becomes a total function from (config, environment, arguments) to
(Result, trace).

Modelling conventions:
  * TypeScript optional fields become `Option`.
  * `number` amounts are modelled as `Nat` (the schema only constrains
    them from below by 1).
  * `nanoid` is nondeterministic at the source level; the embedding
    takes the generator as the `nanoid` component of `NetEnv`.
  * A JavaScript runtime `TypeError` produced by reading a property of
    `undefined` (the `data!` non-null assertions) is modelled by the
    enclosing `catch` block's `handleError` result; the error text is
    abbreviated by the constant `undefinedReadAmount`.
  * An exhausted response stream in the polling loop models a transport
    exception, which the method's `catch` block converts to the generic
    verification error Result.
  * The mutable `isLoading` flag and the `error` field are not modelled;
    no claim mentions them.  `handleError` both returns the failure
    Result and emits the `onFailure` hook event, exactly as the source
    method does.
-/

/-- Payment methods, from the `PaymentOptions` zod enum. -/
inductive PaymentOption where
  | telebirr
  | cbebirr
  | ebirr
  | mpesa
  | chapa
deriving DecidableEq

/-- Wire string for a payment method, as the TypeScript string enum values. -/
def PaymentOption.str : PaymentOption → String
  | .telebirr => "telebirr"
  | .cbebirr => "cbebirr"
  | .ebirr => "ebirr"
  | .mpesa => "mpesa"
  | .chapa => "chapa"

/-- The `customization` block of `CreatePaymentProps`. -/
structure Customization where
  logo : Option String := none
  title : Option String := none
  description : Option String := none
deriving DecidableEq

/-- Caller input `CreatePaymentProps`.  `paymentType` is an `Option` so
that a request in which the caller did not specify a payment method can
be expressed; the schema decides whether that is accepted.  The `meta`
record is modelled as an association list with string values. -/
structure CreatePaymentProps where
  mobile : String
  paymentType : Option PaymentOption
  amount : Nat
  txRef : Option String := none
  email : Option String := none
  first_name : Option String := none
  last_name : Option String := none
  customization : Option Customization := none
  meta : Option (List (String × String)) := none

/-- The normalized `PaymentData` record (`src/types/index.ts`). -/
structure PaymentData where
  amount : String
  mobile : String
  currency : String
  payment_method : PaymentOption
  tx_ref : String
  email : Option String := none
  first_name : Option String := none
  last_name : Option String := none
  customization : Option Customization := none
  meta : Option (List (String × String)) := none

/-- Client configuration `EasyPaymentProps`.  Defaults (`?? 3` for the
retry fields and so on) are applied at the use sites, exactly where the
source methods apply them. -/
structure EasyPaymentProps where
  publicKey : String
  secretKey : Option String := none
  paymentOptions : Option (List PaymentOption) := none
  generateRefId : Option (Unit → String) := none
  callbackUrl : Option String := none
  returnUrl : Option String := none
  maxRetry : Option Nat := none
  retryDelay : Option Nat := none

/-- Nested `data` of `VerifyPaymentResponse`. -/
structure VerifyData where
  amount : String
  charge : String
  status : String
  created_at : String
deriving DecidableEq

/-- Response of the inline verification endpoint (`VerifyPaymentResponse`). -/
structure VerifyPaymentResponse where
  message : String
  trx_ref : String
  processor_id : Option String := none
  data : Option VerifyData := none
  status : String
deriving DecidableEq

/-- The `meta` object nested in `InitiatePaymentResponse.data`. -/
structure InitMeta where
  message : String
  status : String
  ref_id : String
  payment_status : String
deriving DecidableEq

/-- The `data` object of `InitiatePaymentResponse`. -/
structure InitData where
  auth_type : String
  requestID : String
  meta : InitMeta
  mode : String
deriving DecidableEq

/-- Response of the inline charge endpoint (`InitiatePaymentResponse`). -/
structure InitiatePaymentResponse where
  message : String
  status : String
  data : InitData
deriving DecidableEq

/-- The `data` object of `PaymentWithChapaResponse`. -/
structure ChapaInner where
  checkout_url : String
deriving DecidableEq

/-- Response of the hosted initialization endpoint
(`PaymentWithChapaResponse`); `status` is carried as a plain string, as
it is on the wire. -/
structure PaymentWithChapaResponse where
  message : String
  status : String
  data : Option ChapaInner := none
deriving DecidableEq

/-- Nested `data` of the transaction-verification response; the field
set is reconstructed from its uses in `verifyTransaction` (`amount` is a
number there, `.toString()` is applied; `reference` is read with
optional chaining). -/
structure VTData where
  amount : Nat
  tx_ref : String
  created_at : String
  reference : Option String := none
deriving DecidableEq

/-- Response of the direct transaction-verification endpoint
(`VerifyTransactionResponse`); `message` is read with `?? "Unknown
error"` and `data` with `!`/`?.`, so both are optional. -/
structure VerifyTransactionResponse where
  message : Option String := none
  status : String
  data : Option VTData := none
deriving DecidableEq

/-- The `data` payload of `EasyPayResponse`; every field is optional in
the TypeScript type. -/
structure EasyPayData where
  checkoutUrl : Option String := none
  txRef : Option String := none
  amount : Option String := none
  status : Option String := none
  createdAt : Option String := none
deriving DecidableEq

/-- The uniform `EasyPayResponse` Result type. -/
structure EasyPayResponse where
  success : Bool
  message : String
  data : Option EasyPayData
deriving DecidableEq

/-- Argument of an `onSuccess` hook invocation: either the verification
payload or the hosted-flow payload. -/
inductive HookInfo where
  | verifyInfo (amount txRef createdAt : String)
  | chapaInfo (message status : String) (data : Option ChapaInner)
deriving DecidableEq

/-- Observable events of one call: outbound requests, retry delays and
hook invocations, in program order. -/
inductive PayEvent where
  | postReq (url : String) (fields : List (String × String)) (auth : String)
  | getReq (url : String) (auth : String)
  | delayEv (ms : Nat)
  | hookSuccess (info : HookInfo)
  | hookFailure (msg : String)
deriving DecidableEq

/-- The response environment: what each remote endpoint would answer,
plus the `nanoid` generator. -/
structure NetEnv where
  chargeResp : InitiatePaymentResponse
  verifyResponses : List VerifyPaymentResponse
  chapaResp : PaymentWithChapaResponse
  transactionResp : VerifyTransactionResponse
  nanoid : Nat → String

def chapaUrl : String := "https://inline.chapaservices.net/v1/inline/charge"

def chapaVerifyUrl : String := "https://inline.chapaservices.net/v1/inline/validate"

def chapaVerifyTransactionUrl : String := "https://api.chapa.co/v1/transaction/verify"

def chapaAcceptPaymentUrl : String := "https://api.chapa.co/v1/transaction/initialize"

/-- Abbreviated text of the JavaScript TypeError raised when `.amount`
is read off an absent `data` object through a `data!` assertion. -/
def undefinedReadAmount : String := "Cannot read properties of undefined (reading amount)"

/-- `handleError`: builds the failure Result and fires the `onFailure`
hook (lines 277-282 of `easy-pay.ts`). -/
def handleError (msg : String) : EasyPayResponse × List PayEvent :=
  (⟨false, msg, none⟩, [.hookFailure msg])

/-- A helper for optional form fields: present iff the option is `some`. -/
def optField (key : String) : Option String → List (String × String)
  | some v => [(key, v)]
  | none => []

/-- Quote a string as a JSON string literal (escaping elided; no claim
inspects the quoted text itself). -/
def jsonStr (s : String) : String := "\"" ++ s ++ "\""

/-- Comma-join used by the JSON object serializer. -/
def joinComma : List String → String
  | [] => ""
  | [x] => x
  | x :: xs => x ++ "," ++ joinComma xs

/-- `JSON.stringify` of a flat string record. -/
def jsonObj (fields : List (String × String)) : String :=
  "\x7b" ++ joinComma (fields.map fun kv => jsonStr kv.1 ++ ":" ++ jsonStr kv.2) ++ "\x7d"

/-- `JSON.stringify` of a `customization` block. -/
def jsonCustomization (c : Customization) : String :=
  jsonObj (optField "logo" c.logo ++ optField "title" c.title ++
    optField "description" c.description)

-- ------------------ schema validation ------------------

/-- Digit test for the phone-number patterns. -/
def allDigits (l : List Char) : Bool := l.all Char.isDigit

/-- The generic mobile pattern of `createPaymentSchema`:
regex `(251 then 9 digits | 0 then 9 digits | 9 then 8 digits | 7 then 8 digits)`,
anchored on both sides. -/
def genericMobile (s : String) : Bool :=
  match s.toList with
  | '2' :: '5' :: '1' :: rest => rest.length == 9 && allDigits rest
  | '0' :: rest => rest.length == 9 && allDigits rest
  | '9' :: rest => rest.length == 8 && allDigits rest
  | '7' :: rest => rest.length == 8 && allDigits rest
  | _ => false

/-- The telebirr refinement pattern:
`(2519 then 8 digits | 09 then 8 digits | 9 then 8 digits)`. -/
def telebirrMobile (s : String) : Bool :=
  match s.toList with
  | '2' :: '5' :: '1' :: '9' :: rest => rest.length == 8 && allDigits rest
  | '0' :: '9' :: rest => rest.length == 8 && allDigits rest
  | '9' :: rest => rest.length == 8 && allDigits rest
  | _ => false

/-- The mpesa refinement pattern:
`(2517 then 8 digits | 07 then 8 digits | 7 then 8 digits)`. -/
def mpesaMobile (s : String) : Bool :=
  match s.toList with
  | '2' :: '5' :: '1' :: '7' :: rest => rest.length == 8 && allDigits rest
  | '0' :: '7' :: rest => rest.length == 8 && allDigits rest
  | '7' :: rest => rest.length == 8 && allDigits rest
  | _ => false

/-- Simplified model of the `z.email()` check: exactly one `@`, neither
at the start nor at the end (one separator between two nonempty parts).
No claim depends on the exact email grammar. -/
def emailOk (s : String) : Bool :=
  let l := s.toList
  l.count '@' == 1 && l.head? != some '@' && l.getLast? != some '@'

/-- Simplified model of the `z.url()` check on `customization.logo`. -/
def urlOk (s : String) : Bool :=
  "https://".isPrefixOf s || "http://".isPrefixOf s

def mobileMsg : String := "Please enter a valid Phone Number."

def paymentTypeMsg : String := "Invalid option: expected one of the supported payment types"

def amountMsg : String := "Minimum amount must be at least 1"

def txRefMsg : String := "txRef must be at least 3 characters long"

def emailMsg : String := "Invalid email address"

def logoMsg : String := "Invalid url"

def telebirrMsg : String := "Please enter a valid Telebirr Phone Number."

def mpesaMsg : String := "Please enter a valid Mpesa Phone Number."

/-- The base object issues of `createPaymentSchema`, in field order. -/
def baseViolations (req : CreatePaymentProps) : List String :=
  (if genericMobile req.mobile then [] else [mobileMsg])
  ++ (if req.paymentType.isSome then [] else [paymentTypeMsg])
  ++ (if req.amount ≥ 1 then [] else [amountMsg])
  ++ (match req.txRef with
      | some t => if t.length ≥ 3 then [] else [txRefMsg]
      | none => [])
  ++ (match req.email with
      | some e => if emailOk e then [] else [emailMsg]
      | none => [])
  ++ (match req.customization with
      | some c =>
        match c.logo with
        | some l => if urlOk l then [] else [logoMsg]
        | none => []
      | none => [])

/-- The chained telebirr/mpesa refinement issues; zod runs them only
when the base object parses. -/
def refineViolations (req : CreatePaymentProps) : List String :=
  (if req.paymentType = some .telebirr && !telebirrMobile req.mobile
    then [telebirrMsg] else [])
  ++ (if req.paymentType = some .mpesa && !mpesaMobile req.mobile
    then [mpesaMsg] else [])

/-- All issue descriptions collected by `createPaymentSchema.safeParse`:
the base object issues in field order, then, only when the base object
parses, the telebirr/mpesa refinement issues. -/
def violations (req : CreatePaymentProps) : List String :=
  if (baseViolations req).isEmpty then refineViolations req else baseViolations req

/-- Model of `z.prettifyError`: the issue descriptions joined on
newlines. -/
def prettifyError : List String → String
  | [] => ""
  | [e] => e
  | e :: rest => e ++ "\n" ++ prettifyError rest

-- ------------------ the methods ------------------

/-- The public `generateRefId` class method (line 293-295):
`nanoid(size ?? 10)`.  Note this is the method, not the configured
`generateRefId` option. -/
def generateRefIdMethod (nanoidF : Nat → String) (size : Option Nat) : String :=
  nanoidF (size.getD 10)

/-- The `PaymentData` object literal built inside `createPayment`
(lines 63-72).  The literal carries no `customization` and no `meta`
key, so both are absent here. -/
def mkPaymentData (v : CreatePaymentProps) (nanoidF : Nat → String) : PaymentData :=
  { amount := toString v.amount
    mobile := v.mobile
    currency := "ETB"
    payment_method := v.paymentType.getD .telebirr
    tx_ref := v.txRef.getD (generateRefIdMethod nanoidF none)
    email := v.email
    first_name := v.first_name
    last_name := v.last_name
    customization := none
    meta := none }

/-- `Object.entries` of a `PaymentData` value with `undefined` fields
skipped and object values JSON-stringified (lines 188-193). -/
def serializePaymentData (pd : PaymentData) : List (String × String) :=
  [("amount", pd.amount), ("mobile", pd.mobile), ("currency", pd.currency),
   ("payment_method", pd.payment_method.str), ("tx_ref", pd.tx_ref)]
  ++ optField "email" pd.email
  ++ optField "first_name" pd.first_name
  ++ optField "last_name" pd.last_name
  ++ (match pd.customization with
      | some c => [("customization", jsonCustomization c)]
      | none => [])
  ++ (match pd.meta with
      | some m => [("meta", jsonObj m)]
      | none => [])

/-- One verification poll iteration plus the remaining loop
(lines 91-126).  The `fuel` argument is `maxRetry - retries`; the loop
guard `retries < maxRetry` is the `fuel = 0` case, which produces the
timeout Result.  Each iteration consumes the next mocked response. -/
def verifyLoop (retryDelayMs : Nat) (refId method pubKey : String) :
    List VerifyPaymentResponse → Nat → EasyPayResponse × List PayEvent
  | _, 0 => handleError "Payment verification timed out"
  | [], _ + 1 => handleError "Error during payment verification"
  | r :: rest, fuel + 1 =>
    let req : PayEvent := .postReq chapaVerifyUrl
      [("reference", refId), ("payment_method", method)] ("Bearer " ++ pubKey)
    if r.status = "success" then
      match r.data with
      | some d =>
        (⟨true, "Payment verified successfully",
           some { amount := some d.amount, txRef := some r.trx_ref,
                  createdAt := some d.created_at, status := some r.status }⟩,
         [req, .hookSuccess (.verifyInfo d.amount r.trx_ref d.created_at)])
      | none =>
        let (res, evs) := handleError
          ("Error during payment verification: " ++ undefinedReadAmount)
        (res, req :: evs)
    else if r.data.map VerifyData.status = some "pending" then
      let (res, evs) := verifyLoop retryDelayMs refId method pubKey rest fuel
      (res, req :: .delayEv retryDelayMs :: evs)
    else
      let (res, evs) := handleError ("Payment verification failed: " ++ r.message)
      (res, req :: evs)

/-- The public `verifyPayment` method (lines 83-134). -/
def verifyPayment (cfg : EasyPaymentProps) (env : NetEnv) (refId method : String) :
    EasyPayResponse × List PayEvent :=
  verifyLoop ((cfg.retryDelay.getD 3) * 1000) refId method cfg.publicKey
    env.verifyResponses (cfg.maxRetry.getD 3)

/-- `submitChapa` (lines 211-253): fails before any request when the
secret key is missing (or empty, the falsy check), otherwise submits
the hosted-initialization field set and classifies the response. -/
def submitChapa (cfg : EasyPaymentProps) (env : NetEnv) (pd : PaymentData) :
    EasyPayResponse × List PayEvent :=
  let missing := handleError "Cannot initiate Chapa payment: Secret key is missing"
  match cfg.secretKey with
  | none => missing
  | some sk =>
    if sk = "" then missing
    else
      let fields : List (String × String) :=
        [("public_key", cfg.publicKey), ("tx_ref", pd.tx_ref),
         ("amount", pd.amount), ("currency", pd.currency),
         ("first_name", pd.first_name.getD ""), ("last_name", pd.last_name.getD ""),
         ("email", pd.email.getD ""), ("phone_number", pd.mobile)]
        ++ optField "callback_url" cfg.callbackUrl
        ++ optField "return_url" cfg.returnUrl
        ++ (match pd.customization with
            | some c => [("customization", jsonCustomization c)]
            | none => [])
        ++ (match pd.meta with
            | some m => [("meta", jsonObj m)]
            | none => [])
      let req : PayEvent := .postReq chapaAcceptPaymentUrl fields ("Bearer " ++ sk)
      let d := env.chapaResp
      if d.status = "success" then
        (⟨true, d.message,
           some { checkoutUrl := d.data.map ChapaInner.checkout_url,
                  status := some d.status }⟩,
         [req, .hookSuccess (.chapaInfo d.message d.status d.data)])
      else
        let (res, evs) := handleError ("Chapa payment initiation failed: " ++ d.message)
        (res, req :: evs)

/-- `initiatePayment` (lines 179-208): route on the payment method;
the inline route submits the serialized record as a charge request and,
on provider success, hands the provider-issued `ref_id` to the polling
verification. -/
def initiatePayment (cfg : EasyPaymentProps) (env : NetEnv) (pd : PaymentData) :
    EasyPayResponse × List PayEvent :=
  if pd.payment_method = .chapa then
    submitChapa cfg env pd
  else
    let req : PayEvent := .postReq chapaUrl (serializePaymentData pd)
      ("Bearer " ++ cfg.publicKey)
    let r := env.chargeResp
    if r.status = "success" then
      let (res, evs) := verifyPayment cfg env r.data.meta.ref_id pd.payment_method.str
      (res, req :: evs)
    else
      let (res, evs) := handleError ("Transaction initiation failed: " ++ r.message)
      (res, req :: evs)

/-- The public `createPayment` method (lines 55-81): validate, build
the `PaymentData` literal, dispatch. -/
def createPayment (cfg : EasyPaymentProps) (env : NetEnv) (req : CreatePaymentProps) :
    EasyPayResponse × List PayEvent :=
  if (violations req).isEmpty then
    initiatePayment cfg env (mkPaymentData req env.nanoid)
  else
    let full := "Payment validation failed: " ++ prettifyError (violations req)
    (⟨false, full, none⟩, [.hookFailure full])

/-- The public `verifyTransaction` method (lines 136-175): a single
lookup, authorized with the secret key (interpolated as the literal
`undefined` when absent, as the template literal does), classified
three ways. -/
def verifyTransaction (cfg : EasyPaymentProps) (env : NetEnv) (refId : String) :
    EasyPayResponse × List PayEvent :=
  let auth := "Bearer " ++ (match cfg.secretKey with
    | some s => s
    | none => "undefined")
  let req : PayEvent := .getReq (chapaVerifyTransactionUrl ++ "/" ++ refId) auth
  let r := env.transactionResp
  if r.status = "success" then
    match r.data with
    | some d =>
      (⟨true, "Payment verified successfully",
         some { amount := some (toString d.amount), txRef := d.reference,
                createdAt := some d.created_at, status := some r.status }⟩,
       [req, .hookSuccess (.verifyInfo (toString d.amount) d.tx_ref d.created_at)])
    | none =>
      let (res, evs) := handleError
        ("Error during transaction verification: " ++ undefinedReadAmount)
      (res, req :: evs)
  else if r.status = "failed" then
    let (res, evs) := handleError
      ("Transaction verification failed: " ++ (r.message.getD "Unknown error"))
    (res, req :: evs)
  else
    let (res, evs) := handleError
      ("Transaction verification returned unexpected status: " ++ r.status)
    (res, req :: evs)

-- ------------------ trace observations ------------------

/-- Is the event an outbound network request. -/
def isNetReq : PayEvent → Bool
  | .postReq _ _ _ => true
  | .getReq _ _ => true
  | _ => false

/-- Number of outbound network requests in a trace. -/
def netReqCount (evs : List PayEvent) : Nat := (evs.filter isNetReq).length

/-- Is the event a request to the inline verification endpoint. -/
def isVerifyReq : PayEvent → Bool
  | .postReq url _ _ => url == chapaVerifyUrl
  | _ => false

/-- Number of verification requests in a trace. -/
def verifyReqCount (evs : List PayEvent) : Nat := (evs.filter isVerifyReq).length

/-- Does the trace contain a retry delay. -/
def hasDelay (evs : List PayEvent) : Bool :=
  evs.any fun e => match e with
    | .delayEv _ => true
    | _ => false

/-- Substring containment, as a decomposition. -/
def strContains (s pat : String) : Prop := ∃ a b, s = a ++ pat ++ b

-- ------------------ shared fixtures and helper lemmas ------------------

/-- A mocked pending verification response. -/
def pendingResp : VerifyPaymentResponse :=
  { message := "still pending", trx_ref := "REF1",
    data := some { amount := "300.00", charge := "0", status := "pending", created_at := "t0" },
    status := "pending" }

/-- A mocked successful verification response. -/
def successResp : VerifyPaymentResponse :=
  { message := "ok", trx_ref := "REF1",
    data := some { amount := "300.00", charge := "0", status := "success", created_at := "t1" },
    status := "success" }

/-- A mocked failed verification response (no `data` object). -/
def failedResp : VerifyPaymentResponse :=
  { message := "rejected", trx_ref := "REF1", data := none, status := "failed" }

/-- A successful inline charge response carrying `ref_id = "RID"`. -/
def chargeOk : InitiatePaymentResponse :=
  { message := "initiated", status := "success",
    data := { auth_type := "ussd", requestID := "q1", mode := "live",
              meta := { message := "m", status := "s", ref_id := "RID",
                        payment_status := "pending" } } }

/-- A successful transaction-verification response. -/
def txRespOk : VerifyTransactionResponse :=
  { message := some "ok", status := "success",
    data := some { amount := 300, tx_ref := "TX1", created_at := "t2", reference := some "R1" } }

/-- A baseline environment used by witnesses; the response stream is the
argument. -/
def envOf (rs : List VerifyPaymentResponse) : NetEnv :=
  { chargeResp := chargeOk,
    verifyResponses := rs,
    chapaResp := { message := "hosted ok", status := "success", data := some ⟨"https://co"⟩ },
    transactionResp := txRespOk,
    nanoid := fun _ => "NANOID" }

theorem append_ne_empty_left (a b : String) (ha : a ≠ "") : a ++ b ≠ "" := by
  intro he
  apply ha
  have hd : (a ++ b).data = ("" : String).data := congrArg String.data he
  rw [String.data_append] at hd
  have : a.data = [] := by
    have h0 : a.data ++ b.data = [] := hd
    exact List.append_eq_nil.mp h0 |>.1
  cases a
  simp_all

theorem strContains_refl (s : String) : strContains s s := by
  refine ⟨"", "", ?_⟩
  rw [String.append_empty, String.empty_append]

theorem strContains_append_left (pre s pat : String) (h : strContains s pat) :
    strContains (pre ++ s) pat := by
  obtain ⟨a, b, rfl⟩ := h
  refine ⟨pre ++ a, b, ?_⟩
  rw [← String.append_assoc, ← String.append_assoc]

theorem strContains_append_right (s post pat : String) (h : strContains s pat) :
    strContains (s ++ post) pat := by
  obtain ⟨a, b, rfl⟩ := h
  exact ⟨a, b ++ post, String.append_assoc (a ++ pat) b post⟩

theorem strContains_prettify : ∀ (errs : List String) (v : String), v ∈ errs →
    strContains (prettifyError errs) v
  | [], v, h => absurd h (List.not_mem_nil v)
  | [e], v, h => by
    rw [List.mem_singleton.mp h]
    exact strContains_refl (prettifyError [e])
  | e :: f :: rest, v, h => by
    rcases List.mem_cons.mp h with he | hm
    · subst he
      show strContains (v ++ "\n" ++ prettifyError (f :: rest)) v
      refine ⟨"", "\n" ++ prettifyError (f :: rest), ?_⟩
      rw [String.empty_append]
      exact String.append_assoc v "\n" (prettifyError (f :: rest))
    · have ih := strContains_prettify (f :: rest) v hm
      show strContains (e ++ "\n" ++ prettifyError (f :: rest)) v
      exact strContains_append_left (e ++ "\n") (prettifyError (f :: rest)) v ih

/-- C1: for every client configured with maxRetry = 3, `verifyPayment`
on the mocked sequence [pending, pending, success] issues exactly 3
verification requests and returns the verified success Result; on
[pending, pending, pending] it issues exactly 3 requests (never a 4th)
and returns the timed-out failure Result, which agrees with a failed
outcome on the success flag and the null data and differs from it only
in its message text. -/
theorem claim_C1 (cfg : EasyPaymentProps) (h3 : cfg.maxRetry = some 3)
    (env1 env2 env3 : NetEnv)
    (h1 : env1.verifyResponses = [pendingResp, pendingResp, successResp])
    (h2 : env2.verifyResponses = [pendingResp, pendingResp, pendingResp])
    (hf : env3.verifyResponses = [failedResp])
    (refId method : String) :
    verifyReqCount (verifyPayment cfg env1 refId method).2 = 3 ∧
    (verifyPayment cfg env1 refId method).1 =
      ⟨true, "Payment verified successfully",
        some { amount := some "300.00", txRef := some "REF1",
               createdAt := some "t1", status := some "success" }⟩ ∧
    verifyReqCount (verifyPayment cfg env2 refId method).2 = 3 ∧
    (verifyPayment cfg env2 refId method).1 =
      ⟨false, "Payment verification timed out", none⟩ ∧
    (verifyPayment cfg env2 refId method).1.success =
      (verifyPayment cfg env3 refId method).1.success ∧
    (verifyPayment cfg env2 refId method).1.data =
      (verifyPayment cfg env3 refId method).1.data ∧
    (verifyPayment cfg env2 refId method).1.message ≠
      (verifyPayment cfg env3 refId method).1.message := by
  simp only [verifyPayment, h1, h2, hf, h3, Option.getD_some]
  simp [verifyLoop, handleError, pendingResp, successResp, failedResp,
        verifyReqCount, isVerifyReq, chapaVerifyUrl]

/-- Witness for C1 at a concrete client with maxRetry = 3. -/
theorem claim_C1_witness :
    verifyReqCount (verifyPayment { publicKey := "CHAPUBK-w", maxRetry := some 3 }
      (envOf [pendingResp, pendingResp, successResp]) "REF1" "telebirr").2 = 3 ∧
    (verifyPayment { publicKey := "CHAPUBK-w", maxRetry := some 3 }
      (envOf [pendingResp, pendingResp, successResp]) "REF1" "telebirr").1 =
      ⟨true, "Payment verified successfully",
        some { amount := some "300.00", txRef := some "REF1",
               createdAt := some "t1", status := some "success" }⟩ ∧
    verifyReqCount (verifyPayment { publicKey := "CHAPUBK-w", maxRetry := some 3 }
      (envOf [pendingResp, pendingResp, pendingResp]) "REF1" "telebirr").2 = 3 ∧
    (verifyPayment { publicKey := "CHAPUBK-w", maxRetry := some 3 }
      (envOf [pendingResp, pendingResp, pendingResp]) "REF1" "telebirr").1 =
      ⟨false, "Payment verification timed out", none⟩ ∧
    (verifyPayment { publicKey := "CHAPUBK-w", maxRetry := some 3 }
      (envOf [pendingResp, pendingResp, pendingResp]) "REF1" "telebirr").1.success =
    (verifyPayment { publicKey := "CHAPUBK-w", maxRetry := some 3 }
      (envOf [failedResp]) "REF1" "telebirr").1.success ∧
    (verifyPayment { publicKey := "CHAPUBK-w", maxRetry := some 3 }
      (envOf [pendingResp, pendingResp, pendingResp]) "REF1" "telebirr").1.data =
    (verifyPayment { publicKey := "CHAPUBK-w", maxRetry := some 3 }
      (envOf [failedResp]) "REF1" "telebirr").1.data ∧
    (verifyPayment { publicKey := "CHAPUBK-w", maxRetry := some 3 }
      (envOf [pendingResp, pendingResp, pendingResp]) "REF1" "telebirr").1.message ≠
    (verifyPayment { publicKey := "CHAPUBK-w", maxRetry := some 3 }
      (envOf [failedResp]) "REF1" "telebirr").1.message :=
  claim_C1 { publicKey := "CHAPUBK-w", maxRetry := some 3 } rfl
    (envOf [pendingResp, pendingResp, successResp])
    (envOf [pendingResp, pendingResp, pendingResp])
    (envOf [failedResp]) rfl rfl rfl "REF1" "telebirr"

/-- C2: one step of the polling loop.  A response whose top-level
status is not success and whose nested data status is not pending ends
the loop at once with the failure Result carrying the provider message,
after exactly the one request just issued and with no delay, for any
remaining retry budget; a delay (that is, a further poll) ever appears
in the trace only when the head response was classified pending; and a
pending head polls again after the configured delay. -/
theorem claim_C2 (d : Nat) (refId method pubKey : String)
    (r : VerifyPaymentResponse) (rest : List VerifyPaymentResponse) (fuel : Nat) :
    (r.status ≠ "success" → r.data.map VerifyData.status ≠ some "pending" →
      verifyLoop d refId method pubKey (r :: rest) (fuel + 1) =
        (⟨false, "Payment verification failed: " ++ r.message, none⟩,
         [.postReq chapaVerifyUrl [("reference", refId), ("payment_method", method)]
            ("Bearer " ++ pubKey),
          .hookFailure ("Payment verification failed: " ++ r.message)])) ∧
    (hasDelay (verifyLoop d refId method pubKey (r :: rest) (fuel + 1)).2 = true →
      r.status ≠ "success" ∧ r.data.map VerifyData.status = some "pending") ∧
    (r.status ≠ "success" → r.data.map VerifyData.status = some "pending" →
      verifyLoop d refId method pubKey (r :: rest) (fuel + 1) =
        ((verifyLoop d refId method pubKey rest fuel).1,
         .postReq chapaVerifyUrl [("reference", refId), ("payment_method", method)]
            ("Bearer " ++ pubKey)
           :: .delayEv d :: (verifyLoop d refId method pubKey rest fuel).2)) := by
  by_cases hs : r.status = "success"
  · refine ⟨fun h => absurd hs h, ?_, fun h => absurd hs h⟩
    intro hd
    exfalso
    cases hdata : r.data with
    | none => simp [verifyLoop, hs, hdata, handleError, hasDelay] at hd
    | some v => simp [verifyLoop, hs, hdata, handleError, hasDelay] at hd
  · by_cases hp : r.data.map VerifyData.status = some "pending"
    · refine ⟨fun _ h => absurd hp h, fun _ => ⟨hs, hp⟩, fun _ _ => ?_⟩
      simp [verifyLoop, hs, hp, handleError]
    · refine ⟨fun _ _ => ?_, ?_, fun _ h => absurd h hp⟩
      · simp [verifyLoop, hs, hp, handleError]
      · intro hd
        exfalso
        simp [verifyLoop, hs, hp, handleError, hasDelay] at hd

/-- Witness for C2: a failed first response ends the loop after one
request with the provider message, and a pending first response polls
again after the delay. -/
theorem claim_C2_witness :
    verifyLoop 3000 "REF1" "telebirr" "CHAPUBK-w" (failedResp :: []) (2 + 1) =
      (⟨false, "Payment verification failed: " ++ failedResp.message, none⟩,
       [.postReq chapaVerifyUrl [("reference", "REF1"), ("payment_method", "telebirr")]
          ("Bearer " ++ "CHAPUBK-w"),
        .hookFailure ("Payment verification failed: " ++ failedResp.message)]) ∧
    verifyLoop 3000 "REF1" "telebirr" "CHAPUBK-w" (pendingResp :: []) (0 + 1) =
      ((verifyLoop 3000 "REF1" "telebirr" "CHAPUBK-w" [] 0).1,
       .postReq chapaVerifyUrl [("reference", "REF1"), ("payment_method", "telebirr")]
          ("Bearer " ++ "CHAPUBK-w")
         :: .delayEv 3000 :: (verifyLoop 3000 "REF1" "telebirr" "CHAPUBK-w" [] 0).2) :=
  ⟨(claim_C2 3000 "REF1" "telebirr" "CHAPUBK-w" failedResp [] 2).1
      (by decide) (by decide),
   (claim_C2 3000 "REF1" "telebirr" "CHAPUBK-w" pendingResp [] 0).2.2
      (by decide) (by decide)⟩

/-- A concrete client configuration without a secret key. -/
def cfgW : EasyPaymentProps := { publicKey := "CHAPUBK-w" }

/-- A valid telebirr request without a caller-supplied txRef. -/
def reqTele : CreatePaymentProps :=
  { mobile := "0900123456", paymentType := some .telebirr, amount := 500 }

/-- An environment whose inline charge request is rejected. -/
def envFail : NetEnv :=
  { envOf [] with
    chargeResp := { message := "no funds", status := "failed", data := chargeOk.data } }

/-- C3: a createPayment call routed to the inline strategy (any method
other than chapa) fails with the provider message and performs no
verification request when the charge response status is not success;
when it is success, the call hands the provider-issued ref_id to the
polling verification and returns exactly its final Result, never an
intermediate accepted result. -/
theorem claim_C3 (cfg : EasyPaymentProps) (env : NetEnv) (req : CreatePaymentProps)
    (p : PaymentOption) (hv : violations req = []) (hp : req.paymentType = some p)
    (hne : p ≠ .chapa) :
    (env.chargeResp.status ≠ "success" →
      createPayment cfg env req =
        (⟨false, "Transaction initiation failed: " ++ env.chargeResp.message, none⟩,
         [.postReq chapaUrl (serializePaymentData (mkPaymentData req env.nanoid))
            ("Bearer " ++ cfg.publicKey),
          .hookFailure ("Transaction initiation failed: " ++ env.chargeResp.message)]) ∧
      verifyReqCount (createPayment cfg env req).2 = 0) ∧
    (env.chargeResp.status = "success" →
      (createPayment cfg env req).1 =
        (verifyPayment cfg env env.chargeResp.data.meta.ref_id p.str).1) := by
  have hroute : createPayment cfg env req =
      initiatePayment cfg env (mkPaymentData req env.nanoid) := by
    simp [createPayment, hv]
  have hpm : (mkPaymentData req env.nanoid).payment_method = p := by
    simp [mkPaymentData, hp]
  constructor
  · intro hfail
    have heq : createPayment cfg env req =
        (⟨false, "Transaction initiation failed: " ++ env.chargeResp.message, none⟩,
         [.postReq chapaUrl (serializePaymentData (mkPaymentData req env.nanoid))
            ("Bearer " ++ cfg.publicKey),
          .hookFailure ("Transaction initiation failed: " ++ env.chargeResp.message)]) := by
      rw [hroute]
      simp [initiatePayment, hpm, hne, hfail, handleError]
    refine ⟨heq, ?_⟩
    rw [heq]
    simp [verifyReqCount, isVerifyReq, chapaUrl, chapaVerifyUrl]
  · intro hsucc
    rw [hroute]
    simp [initiatePayment, hpm, hne, hsucc]

/-- Witness for C3: a rejected charge for a telebirr request, and a
successful charge whose final Result is the polling verification's
Result on the provider-issued ref_id. -/
theorem claim_C3_witness :
    (createPayment cfgW envFail reqTele =
      (⟨false, "Transaction initiation failed: " ++ envFail.chargeResp.message, none⟩,
       [.postReq chapaUrl (serializePaymentData (mkPaymentData reqTele envFail.nanoid))
          ("Bearer " ++ cfgW.publicKey),
        .hookFailure ("Transaction initiation failed: " ++ envFail.chargeResp.message)]) ∧
     verifyReqCount (createPayment cfgW envFail reqTele).2 = 0) ∧
    (createPayment cfgW (envOf [successResp]) reqTele).1 =
      (verifyPayment cfgW (envOf [successResp])
        (envOf [successResp]).chargeResp.data.meta.ref_id PaymentOption.telebirr.str).1 :=
  ⟨(claim_C3 cfgW envFail reqTele .telebirr (by decide) rfl (by decide)).1 (by decide),
   (claim_C3 cfgW (envOf [successResp]) reqTele .telebirr
      (by decide) rfl (by decide)).2 rfl⟩

/-- C4: a chapa createPayment call on a client without a secret key
returns the configuration failure Result, whose message contains the
text Secret key is missing and whose data is null, before any network
request of any kind. -/
theorem claim_C4 (cfg : EasyPaymentProps) (env : NetEnv) (req : CreatePaymentProps)
    (hk : cfg.secretKey = none) (hv : violations req = [])
    (hp : req.paymentType = some .chapa) :
    createPayment cfg env req =
      (⟨false, "Cannot initiate Chapa payment: Secret key is missing", none⟩,
       [.hookFailure "Cannot initiate Chapa payment: Secret key is missing"]) ∧
    netReqCount (createPayment cfg env req).2 = 0 ∧
    strContains "Cannot initiate Chapa payment: Secret key is missing"
      "Secret key is missing" := by
  have heq : createPayment cfg env req =
      (⟨false, "Cannot initiate Chapa payment: Secret key is missing", none⟩,
       [.hookFailure "Cannot initiate Chapa payment: Secret key is missing"]) := by
    simp [createPayment, hv, initiatePayment, mkPaymentData, hp, submitChapa, hk,
      handleError]
  refine ⟨heq, ?_, ?_⟩
  · rw [heq]
    simp [netReqCount, isNetReq]
  · refine ⟨"Cannot initiate Chapa payment: ", "", ?_⟩
    decide

/-- Witness for C4 at the scenario request of the spec. -/
theorem claim_C4_witness :
    createPayment cfgW (envOf [])
      { mobile := "0900123456", paymentType := some .chapa, amount := 500,
        first_name := some "Endekalu", last_name := some "Zemenu",
        email := some "realkal.ez@gmail.com" } =
      (⟨false, "Cannot initiate Chapa payment: Secret key is missing", none⟩,
       [.hookFailure "Cannot initiate Chapa payment: Secret key is missing"]) ∧
    netReqCount (createPayment cfgW (envOf [])
      { mobile := "0900123456", paymentType := some .chapa, amount := 500,
        first_name := some "Endekalu", last_name := some "Zemenu",
        email := some "realkal.ez@gmail.com" }).2 = 0 ∧
    strContains "Cannot initiate Chapa payment: Secret key is missing"
      "Secret key is missing" :=
  claim_C4 cfgW (envOf [])
    { mobile := "0900123456", paymentType := some .chapa, amount := 500,
      first_name := some "Endekalu", last_name := some "Zemenu",
      email := some "realkal.ez@gmail.com" } rfl (by decide) rfl

/-- The Result invariant that actually holds on every path: the success
flag mirrors whether data is non-null, and on every failure the message
is a nonempty string. -/
def resultInvariant (r : EasyPayResponse) : Prop :=
  r.success = r.data.isSome ∧ (r.success = false → r.message ≠ "")

theorem resultInvariant_handleError (msg : String) (h : msg ≠ "") :
    resultInvariant (handleError msg).1 :=
  ⟨rfl, fun _ => h⟩

theorem resultInvariant_verifyLoop (d : Nat) (i m p : String) :
    ∀ (rs : List VerifyPaymentResponse) (fuel : Nat),
      resultInvariant (verifyLoop d i m p rs fuel).1
  | rs, 0 => by
    have h0 : verifyLoop d i m p rs 0 = handleError "Payment verification timed out" := by
      cases rs <;> rfl
    rw [h0]
    exact resultInvariant_handleError _ (by decide)
  | [], fuel + 1 => by
    have h0 : verifyLoop d i m p [] (fuel + 1) =
        handleError "Error during payment verification" := rfl
    rw [h0]
    exact resultInvariant_handleError _ (by decide)
  | r :: rest, fuel + 1 => by
    by_cases hs : r.status = "success"
    · cases hdata : r.data with
      | some v => simp [verifyLoop, hs, hdata, resultInvariant]
      | none =>
        simp [verifyLoop, hs, hdata, handleError, resultInvariant]
        decide
    · by_cases hp : r.data.map VerifyData.status = some "pending"
      · have ih := resultInvariant_verifyLoop d i m p rest fuel
        simpa [verifyLoop, hs, hp] using ih
      · have hmsg : "Payment verification failed: " ++ r.message ≠ "" :=
          append_ne_empty_left _ _ (by decide)
        simp [verifyLoop, hs, hp, handleError, resultInvariant]
        exact fun h => hmsg (by rw [h])

theorem resultInvariant_verifyPayment (cfg : EasyPaymentProps) (env : NetEnv)
    (refId method : String) : resultInvariant (verifyPayment cfg env refId method).1 :=
  resultInvariant_verifyLoop _ _ _ _ _ _

theorem resultInvariant_submitChapa (cfg : EasyPaymentProps) (env : NetEnv)
    (pd : PaymentData) : resultInvariant (submitChapa cfg env pd).1 := by
  cases hsk : cfg.secretKey with
  | none => simp [submitChapa, hsk, handleError, resultInvariant]
  | some sk =>
    by_cases he : sk = ""
    · simp [submitChapa, hsk, he, handleError, resultInvariant]
    · by_cases hst : env.chapaResp.status = "success"
      · simp [submitChapa, hsk, he, hst, resultInvariant]
      · have hmsg : "Chapa payment initiation failed: " ++ env.chapaResp.message ≠ "" :=
          append_ne_empty_left _ _ (by decide)
        simp [submitChapa, hsk, he, hst, handleError, resultInvariant]
        exact fun h => hmsg (by rw [h])

theorem resultInvariant_initiatePayment (cfg : EasyPaymentProps) (env : NetEnv)
    (pd : PaymentData) : resultInvariant (initiatePayment cfg env pd).1 := by
  by_cases hch : pd.payment_method = .chapa
  · simpa [initiatePayment, hch] using resultInvariant_submitChapa cfg env pd
  · by_cases hst : env.chargeResp.status = "success"
    · simpa [initiatePayment, hch, hst] using
        resultInvariant_verifyPayment cfg env env.chargeResp.data.meta.ref_id
          pd.payment_method.str
    · have hmsg : "Transaction initiation failed: " ++ env.chargeResp.message ≠ "" :=
        append_ne_empty_left _ _ (by decide)
      simp [initiatePayment, hch, hst, handleError, resultInvariant]
      exact fun h => hmsg (by rw [h])

theorem resultInvariant_createPayment (cfg : EasyPaymentProps) (env : NetEnv)
    (req : CreatePaymentProps) : resultInvariant (createPayment cfg env req).1 := by
  by_cases hv : (violations req).isEmpty
  · simpa [createPayment, hv] using
      resultInvariant_initiatePayment cfg env (mkPaymentData req env.nanoid)
  · have hmsg : "Payment validation failed: " ++ prettifyError (violations req) ≠ "" :=
      append_ne_empty_left _ _ (by decide)
    simp [createPayment, hv, resultInvariant]
    exact fun h => hmsg (by rw [h])

theorem resultInvariant_verifyTransaction (cfg : EasyPaymentProps) (env : NetEnv)
    (refId : String) : resultInvariant (verifyTransaction cfg env refId).1 := by
  by_cases hs : env.transactionResp.status = "success"
  · cases hdata : env.transactionResp.data with
    | some v => simp [verifyTransaction, hs, hdata, resultInvariant]
    | none =>
      simp [verifyTransaction, hs, hdata, handleError, resultInvariant]
      decide
  · by_cases hf : env.transactionResp.status = "failed"
    · have hmsg : "Transaction verification failed: " ++
          (env.transactionResp.message.getD "Unknown error") ≠ "" :=
        append_ne_empty_left _ _ (by decide)
      simp [verifyTransaction, hs, hf, handleError, resultInvariant]
      exact fun h => hmsg (by rw [h])
    · have hmsg : "Transaction verification returned unexpected status: " ++
          env.transactionResp.status ≠ "" :=
        append_ne_empty_left _ _ (by decide)
      simp [verifyTransaction, hs, hf, handleError, resultInvariant]
      exact fun h => hmsg (by rw [h])

/-- A client with both keys, for the hosted-flow counterexample. -/
def cfgSec : EasyPaymentProps :=
  { publicKey := "CHAPUBK-w", secretKey := some "CHASECK-w" }

/-- An environment whose hosted initialization answers success with an
empty message and no data block. -/
def envEmptyMsg : NetEnv :=
  { envOf [] with
    chapaResp := { message := "", status := "success", data := none } }

/-- A valid chapa request. -/
def reqChapaW : CreatePaymentProps :=
  { mobile := "0900123456", paymentType := some .chapa, amount := 500 }

/-- C5 counterexample: a hosted-flow success whose provider response
carries an empty message and no data block yields a Result with
success true, an empty message and a payload without a checkout URL,
so the message is not populated and the payload is not a checkout-URL
payload. -/
theorem claim_C5_counterexample :
    (createPayment cfgSec envEmptyMsg reqChapaW).1.success = true ∧
    (createPayment cfgSec envEmptyMsg reqChapaW).1.message = "" ∧
    (createPayment cfgSec envEmptyMsg reqChapaW).1.data =
      some { checkoutUrl := none, status := some "success" } := by
  refine ⟨?_, ?_, ?_⟩ <;> decide

/-- C5 as amended: every Result of the three public operations has its
success flag equal to data being non-null (so data is null exactly on
failure), and on every failure the message is nonempty; on the hosted
success path the message is the provider message verbatim. -/
theorem claim_C5_amended (cfg : EasyPaymentProps) (env : NetEnv)
    (req : CreatePaymentProps) (refId method : String) :
    resultInvariant (createPayment cfg env req).1 ∧
    resultInvariant (verifyPayment cfg env refId method).1 ∧
    resultInvariant (verifyTransaction cfg env refId).1 :=
  ⟨resultInvariant_createPayment cfg env req,
   resultInvariant_verifyPayment cfg env refId method,
   resultInvariant_verifyTransaction cfg env refId⟩

/-- Witness for the amended C5 at concrete inputs. -/
theorem claim_C5_amended_witness :
    resultInvariant (createPayment cfgW (envOf [successResp]) reqTele).1 ∧
    resultInvariant (verifyPayment cfgW (envOf [successResp]) "REF1" "telebirr").1 ∧
    resultInvariant (verifyTransaction cfgW (envOf [successResp]) "TX1").1 :=
  claim_C5_amended cfgW (envOf [successResp]) reqTele "REF1" "telebirr"

/-- C6: when validation fails, createPayment makes no network request
and returns the failure Result whose message is the prettified list of
all collected violations, hence contains every violation's
description. -/
theorem claim_C6 (cfg : EasyPaymentProps) (env : NetEnv) (req : CreatePaymentProps)
    (h : violations req ≠ []) :
    createPayment cfg env req =
      (⟨false, "Payment validation failed: " ++ prettifyError (violations req), none⟩,
       [.hookFailure ("Payment validation failed: " ++ prettifyError (violations req))]) ∧
    netReqCount (createPayment cfg env req).2 = 0 ∧
    ∀ v ∈ violations req, strContains (createPayment cfg env req).1.message v := by
  have hne : (violations req).isEmpty = false := by
    cases hv : violations req with
    | nil => exact absurd hv h
    | cons a t => rfl
  have heq : createPayment cfg env req =
      (⟨false, "Payment validation failed: " ++ prettifyError (violations req), none⟩,
       [.hookFailure ("Payment validation failed: " ++ prettifyError (violations req))]) := by
    simp [createPayment, hne]
  refine ⟨heq, ?_, ?_⟩
  · rw [heq]
    simp [netReqCount, isNetReq]
  · intro v hv
    rw [heq]
    exact strContains_append_left _ _ _ (strContains_prettify _ v hv)

/-- A request violating two constraints at once: a mobile number that
matches no provider shape and an amount below 1. -/
def reqBad : CreatePaymentProps :=
  { mobile := "123", paymentType := some .telebirr, amount := 0 }

/-- Witness for C6: both violation descriptions appear in the Result
message and no request is made. -/
theorem claim_C6_witness :
    createPayment cfgW (envOf []) reqBad =
      (⟨false, "Payment validation failed: " ++ prettifyError (violations reqBad), none⟩,
       [.hookFailure ("Payment validation failed: " ++ prettifyError (violations reqBad))]) ∧
    netReqCount (createPayment cfgW (envOf []) reqBad).2 = 0 ∧
    strContains (createPayment cfgW (envOf []) reqBad).1.message mobileMsg ∧
    strContains (createPayment cfgW (envOf []) reqBad).1.message amountMsg :=
  ⟨(claim_C6 cfgW (envOf []) reqBad (by decide)).1,
   (claim_C6 cfgW (envOf []) reqBad (by decide)).2.1,
   (claim_C6 cfgW (envOf []) reqBad (by decide)).2.2 mobileMsg (by decide),
   (claim_C6 cfgW (envOf []) reqBad (by decide)).2.2 amountMsg (by decide)⟩

theorem vtMsgDistinct (m s : String) :
    "Transaction verification failed: " ++ m ≠
      "Transaction verification returned unexpected status: " ++ s := by
  intro h
  have hd := congrArg String.data h
  rw [String.data_append, String.data_append] at hd
  have h33 := congrArg (List.take 33) hd
  rw [List.take_append_of_le_length (by decide),
      List.take_append_of_le_length (by decide)] at h33
  exact absurd h33 (by decide)

/-- C7: verifyTransaction classifies the lookup response three ways:
status success returns the success Result and fires the success hook
with amount, reference and timestamp; status failed returns the failure
Result embedding the provider message; any other status returns the
unexpected-status failure Result, whose message is textually distinct
from every explicit-failed message. -/
theorem claim_C7 (cfg : EasyPaymentProps) (env : NetEnv) (refId : String) :
    (∀ d, env.transactionResp.status = "success" → env.transactionResp.data = some d →
      (verifyTransaction cfg env refId).1 =
        ⟨true, "Payment verified successfully",
          some { amount := some (toString d.amount), txRef := d.reference,
                 createdAt := some d.created_at, status := some "success" }⟩ ∧
      PayEvent.hookSuccess (.verifyInfo (toString d.amount) d.tx_ref d.created_at) ∈
        (verifyTransaction cfg env refId).2) ∧
    (env.transactionResp.status = "failed" →
      (verifyTransaction cfg env refId).1 =
        ⟨false, "Transaction verification failed: " ++
          env.transactionResp.message.getD "Unknown error", none⟩) ∧
    (env.transactionResp.status ≠ "success" → env.transactionResp.status ≠ "failed" →
      (verifyTransaction cfg env refId).1 =
        ⟨false, "Transaction verification returned unexpected status: " ++
          env.transactionResp.status, none⟩) ∧
    (∀ m s, "Transaction verification failed: " ++ m ≠
      "Transaction verification returned unexpected status: " ++ s) := by
  refine ⟨?_, ?_, ?_, vtMsgDistinct⟩
  · intro d hs hd
    constructor
    · simp [verifyTransaction, hs, hd]
    · simp [verifyTransaction, hs, hd]
  · intro hf
    have hs : env.transactionResp.status ≠ "success" := by
      rw [hf]
      decide
    simp [verifyTransaction, hs, hf, handleError]
  · intro hs hf
    simp [verifyTransaction, hs, hf, handleError]

/-- An environment whose lookup answers an explicit failed status. -/
def envTxFail : NetEnv :=
  { envOf [] with
    transactionResp := { message := some "declined", status := "failed", data := none } }

/-- An environment whose lookup answers an unrecognized status. -/
def envTxOdd : NetEnv :=
  { envOf [] with
    transactionResp := { message := none, status := "reversed", data := none } }

/-- Witness for C7 on all three classifications and on the message
distinctness at concrete strings. -/
theorem claim_C7_witness :
    ((verifyTransaction cfgW (envOf []) "TX1").1 =
      ⟨true, "Payment verified successfully",
        some { amount := some (toString (300 : Nat)), txRef := some "R1",
               createdAt := some "t2", status := some "success" }⟩ ∧
     PayEvent.hookSuccess (.verifyInfo (toString (300 : Nat)) "TX1" "t2") ∈
       (verifyTransaction cfgW (envOf []) "TX1").2) ∧
    (verifyTransaction cfgW envTxFail "TX1").1 =
      ⟨false, "Transaction verification failed: " ++
        envTxFail.transactionResp.message.getD "Unknown error", none⟩ ∧
    (verifyTransaction cfgW envTxOdd "TX1").1 =
      ⟨false, "Transaction verification returned unexpected status: " ++
        envTxOdd.transactionResp.status, none⟩ ∧
    "Transaction verification failed: " ++ "declined" ≠
      "Transaction verification returned unexpected status: " ++ "reversed" :=
  ⟨(claim_C7 cfgW (envOf []) "TX1").1
      { amount := 300, tx_ref := "TX1", created_at := "t2", reference := some "R1" }
      rfl rfl,
   (claim_C7 cfgW envTxFail "TX1").2.1 rfl,
   (claim_C7 cfgW envTxOdd "TX1").2.2.1 (by decide) (by decide),
   (claim_C7 cfgW envTxOdd "TX1").2.2.2 "declined" "reversed"⟩

/-- A client configured with a custom reference generator. -/
def cfgGen : EasyPaymentProps :=
  { publicKey := "CHAPUBK-w", generateRefId := some (fun _ => "CUSTOM") }

/-- C8 counterexample: with a configured generator that returns CUSTOM
and a nanoid that returns NANOID, the normalized record's tx_ref is the
nanoid output, not the configured generator's output; and a request
without a paymentType is rejected by validation instead of defaulting
to telebirr. -/
theorem claim_C8_counterexample :
    cfgGen.generateRefId.map (fun g => g ()) = some "CUSTOM" ∧
    ("tx_ref", "NANOID") ∈ serializePaymentData (mkPaymentData reqTele envFail.nanoid) ∧
    ("tx_ref", "CUSTOM") ∉ serializePaymentData (mkPaymentData reqTele envFail.nanoid) ∧
    (createPayment cfgGen envFail reqTele).2.head? =
      some (.postReq chapaUrl (serializePaymentData (mkPaymentData reqTele envFail.nanoid))
        ("Bearer " ++ cfgGen.publicKey)) ∧
    (createPayment cfgGen envFail { reqTele with paymentType := none }).1.success = false ∧
    paymentTypeMsg ∈ violations { reqTele with paymentType := none } ∧
    netReqCount (createPayment cfgGen envFail { reqTele with paymentType := none }).2 = 0 := by
  refine ⟨rfl, ?_, ?_, ?_, ?_, ?_, ?_⟩ <;> decide

/-- C8 as amended: when txRef is absent the normalized record's tx_ref
comes from the `generateRefId` class method (nanoid with size 10),
independently of any generator configured on the client; and a request
without a paymentType fails validation (the schema requires it), so the
telebirr fallback in the normalization is never exercised. -/
theorem claim_C8_amended (cfg : EasyPaymentProps) (env : NetEnv)
    (req : CreatePaymentProps) :
    (req.txRef = none →
      (mkPaymentData req env.nanoid).tx_ref = generateRefIdMethod env.nanoid none) ∧
    (req.paymentType = none →
      paymentTypeMsg ∈ violations req ∧
      (createPayment cfg env req).1.success = false ∧
      netReqCount (createPayment cfg env req).2 = 0) := by
  constructor
  · intro h
    simp [mkPaymentData, h]
  · intro h
    have hmem : paymentTypeMsg ∈ baseViolations req := by
      unfold baseViolations
      rw [h]
      simp
    have hne : (baseViolations req).isEmpty = false := by
      cases hb : baseViolations req with
      | nil =>
        rw [hb] at hmem
        cases hmem
      | cons a t => rfl
    have hviol : violations req = baseViolations req := by
      simp [violations, hne]
    have hvne : (violations req).isEmpty = false := by
      rw [hviol]
      exact hne
    refine ⟨hviol ▸ hmem, ?_, ?_⟩
    · simp [createPayment, hvne]
    · simp [createPayment, hvne, netReqCount, isNetReq]

/-- Witness for the amended C8. -/
theorem claim_C8_amended_witness :
    ((mkPaymentData reqTele envFail.nanoid).tx_ref =
      generateRefIdMethod envFail.nanoid none) ∧
    (paymentTypeMsg ∈ violations { reqTele with paymentType := none } ∧
     (createPayment cfgGen envFail { reqTele with paymentType := none }).1.success = false ∧
     netReqCount (createPayment cfgGen envFail { reqTele with paymentType := none }).2 = 0) :=
  ⟨(claim_C8_amended cfgGen envFail reqTele).1 rfl,
   (claim_C8_amended cfgGen envFail { reqTele with paymentType := none }).2 rfl⟩

/-- A valid chapa request that carries both a customization block and a
metadata block. -/
def reqCust : CreatePaymentProps :=
  { mobile := "0900123456", paymentType := some .chapa, amount := 500,
    customization := some { title := some "Donation" },
    meta := some [("orderId", "ORDER789")] }

/-- The field set the hosted initialization request actually submits
for `reqCust` under `cfgSec` and the baseline environment. -/
def chapaFieldsSent : List (String × String) :=
  [("public_key", "CHAPUBK-w"), ("tx_ref", "NANOID"), ("amount", "500"),
   ("currency", "ETB"), ("first_name", ""), ("last_name", ""), ("email", ""),
   ("phone_number", "0900123456")]

/-- C9, evaluated at the failing input: although the request carries
customization and meta, the submitted hosted field set contains
neither a customization nor a meta key, because the normalization in
createPayment drops both before `submitChapa` runs. -/
theorem claim_C9_bug :
    reqCust.customization = some { title := some "Donation" } ∧
    reqCust.meta = some [("orderId", "ORDER789")] ∧
    (createPayment cfgSec (envOf []) reqCust).2.head? =
      some (.postReq chapaAcceptPaymentUrl chapaFieldsSent ("Bearer " ++ "CHASECK-w")) ∧
    "customization" ∉ chapaFieldsSent.map Prod.fst ∧
    "meta" ∉ chapaFieldsSent.map Prod.fst := by
  refine ⟨rfl, rfl, ?_, ?_, ?_⟩ <;> decide

/-- C10: with no secret key configured, verifyTransaction still issues
its single lookup request, with the credential interpolated as the
literal string undefined, while the hosted createPayment path returns
the configuration failure before any network request. -/
theorem claim_C10 (cfg : EasyPaymentProps) (env : NetEnv) (refId : String)
    (req : CreatePaymentProps) (hk : cfg.secretKey = none)
    (hv : violations req = []) (hp : req.paymentType = some .chapa) :
    (verifyTransaction cfg env refId).2.head? =
      some (.getReq (chapaVerifyTransactionUrl ++ "/" ++ refId)
        ("Bearer " ++ "undefined")) ∧
    netReqCount (verifyTransaction cfg env refId).2 = 1 ∧
    createPayment cfg env req =
      (⟨false, "Cannot initiate Chapa payment: Secret key is missing", none⟩,
       [.hookFailure "Cannot initiate Chapa payment: Secret key is missing"]) ∧
    netReqCount (createPayment cfg env req).2 = 0 := by
  have hcp : createPayment cfg env req =
      (⟨false, "Cannot initiate Chapa payment: Secret key is missing", none⟩,
       [.hookFailure "Cannot initiate Chapa payment: Secret key is missing"]) := by
    simp [createPayment, hv, initiatePayment, mkPaymentData, hp, submitChapa, hk,
      handleError]
  refine ⟨?_, ?_, hcp, ?_⟩
  · by_cases hs : env.transactionResp.status = "success"
    · cases hdata : env.transactionResp.data with
      | some v => simp [verifyTransaction, hs, hdata, hk]
      | none => simp [verifyTransaction, hs, hdata, hk, handleError]
    · by_cases hf : env.transactionResp.status = "failed"
      · simp [verifyTransaction, hs, hf, hk, handleError]
      · simp [verifyTransaction, hs, hf, hk, handleError]
  · by_cases hs : env.transactionResp.status = "success"
    · cases hdata : env.transactionResp.data with
      | some v => simp [verifyTransaction, hs, hdata, hk, netReqCount, isNetReq]
      | none => simp [verifyTransaction, hs, hdata, hk, handleError, netReqCount, isNetReq]
    · by_cases hf : env.transactionResp.status = "failed"
      · simp [verifyTransaction, hs, hf, hk, handleError, netReqCount, isNetReq]
      · simp [verifyTransaction, hs, hf, hk, handleError, netReqCount, isNetReq]
  · rw [hcp]
    simp [netReqCount, isNetReq]

/-- Witness for C10 at a concrete client without a secret key. -/
theorem claim_C10_witness :
    (verifyTransaction cfgW (envOf []) "TX1").2.head? =
      some (.getReq (chapaVerifyTransactionUrl ++ "/" ++ "TX1")
        ("Bearer " ++ "undefined")) ∧
    netReqCount (verifyTransaction cfgW (envOf []) "TX1").2 = 1 ∧
    createPayment cfgW (envOf []) reqChapaW =
      (⟨false, "Cannot initiate Chapa payment: Secret key is missing", none⟩,
       [.hookFailure "Cannot initiate Chapa payment: Secret key is missing"]) ∧
    netReqCount (createPayment cfgW (envOf []) reqChapaW).2 = 0 :=
  claim_C10 cfgW (envOf []) "TX1" reqChapaW rfl (by decide) rfl
